import Mathlib

/-!
# Verification of the hetzner autoscaler manager core

Shallow embedding of `src/cluster-autoscaler/cloudprovider/hetzner/hetzner_manager.go`:
the manager construction (`newManager`), node-group registry, the draining pseudo-group
bookkeeping (`addNodeToDrainingPool`), node-to-server resolution (`serverForNode`),
deletion (`deleteByNode`, `deleteServer`), listing (`allServers`) and `Refresh`.

The remote hcloud client, the text/template engine and a few constants
(`drainingNodePoolId`, the provider-id scheme, the node-group label) live outside
the visible source slice; they are modelled from the spec where noted, or taken as
parameters where no claim depends on their value.
-/

set_option autoImplicit false

namespace Hetzner

/-- Go `strings.TrimPrefix(s, pre)`: drops `pre` from the front of `s` when `s`
starts with it, otherwise returns `s` unchanged (character-list form so that
concrete instances reduce definitionally). -/
def goStripLeading (s pre : String) : String :=
  if pre.data.isPrefixOf s.data then String.mk (s.data.drop pre.data.length) else s

/-- Splitter for Go `strings.Split(s, ",")` (the only separator the source
uses): `acc` holds the characters of the current field in reverse. -/
def splitCommaAux : List Char → List Char → List String
  | [], acc => [String.mk acc.reverse]
  | c :: rest, acc =>
    if c = ',' then String.mk acc.reverse :: splitCommaAux rest []
    else splitCommaAux rest (c :: acc)

/-- Go `strings.Split(s, ",")`; in particular `strings.Split("", ",") = [""]`:
splitting always yields one more field than there are separators. -/
def goSplitComma (s : String) : List String :=
  splitCommaAux s.data []

/-- Modelled from the spec: the reserved draining group id constant is declared in a
repository file outside the visible slice; no claim depends on its value. -/
def drainingNodePoolId : String := "draining-node-pool"

/-- Modelled from the spec: the known provider-id scheme stripped during resolution
(`providerIDPrefix` in the repository, declared outside the visible slice); no claim
depends on its value. -/
def providerIDScheme : String := "hcloud://"

/-- Modelled from the spec: the node-group label key used for label-filtered listing
(`nodeGroupLabel` in the repository, declared outside the visible slice). -/
def nodeGroupLabelKey : String := "hcloud/node-group"

/-- The value of a standard base64 alphabet character, `none` for anything else
(including the padding character). -/
def base64Val (c : Char) : Option Nat :=
  if 'A' ≤ c ∧ c ≤ 'Z' then some (c.toNat - 65)
  else if 'a' ≤ c ∧ c ≤ 'z' then some (c.toNat - 97 + 26)
  else if '0' ≤ c ∧ c ≤ '9' then some (c.toNat - 48 + 52)
  else if c = '+' then some 62
  else if c = '/' then some 63
  else none

/-- Decode a run of base64 quantums: four alphabet characters yield three bytes;
the final quantum may carry one or two padding characters yielding two or one
byte(s).  Mirrors Go `encoding/base64` `StdEncoding` block handling (which does
not reject non-zero trailing bits). -/
def base64Blocks : List Char → Option (List Nat)
  | [] => some []
  | c1 :: c2 :: c3 :: c4 :: rest => do
    let v1 ← base64Val c1
    let v2 ← base64Val c2
    if c3 = '=' then
      if c4 = '=' ∧ rest = [] then
        some [v1 * 4 + v2 / 16]
      else none
    else do
      let v3 ← base64Val c3
      if c4 = '=' then
        if rest = [] then
          some [v1 * 4 + v2 / 16, (v2 % 16) * 16 + v3 / 4]
        else none
      else do
        let v4 ← base64Val c4
        let bs ← base64Blocks rest
        some ((v1 * 4 + v2 / 16) :: ((v2 % 16) * 16 + v3 / 4) :: ((v3 % 4) * 64 + v4) :: bs)
  | _ => none

/-- Go `base64.StdEncoding.DecodeString`: newline characters are skipped, the rest
must be whole padded quantums over the standard alphabet; `none` models the
`CorruptInputError` failure. -/
def base64StdDecode (s : String) : Option (List Nat) :=
  base64Blocks (s.data.filter (fun c => c ≠ '\r' ∧ c ≠ '\n'))

/-- Go `string(bytes)` on the decoded cloud-init payload (claims only exercise
ASCII payloads, where byte-wise and UTF-8 views agree). -/
def stringOfBytes (bs : List Nat) : String :=
  String.mk (bs.map Char.ofNat)

/-- `*apiv1.Node`: the fields of the external cluster node read by this core
(`node.Name` and `node.Spec.ProviderID`). -/
structure Node where
  name : String
  providerID : String
  deriving DecidableEq, Repr

/-- `*hcloud.Server`: the fields of a remote server relevant to this core. -/
structure Server where
  id : Nat
  name : String
  deriving DecidableEq, Repr

/-- Outcome of the Gateway's get-by-id-or-name call.  Modelled from the spec:
the hcloud client is outside the visible slice; per the spec the Gateway
distinguishes absence (`notFound`, delivered to the caller as a nil server with
nil error, which the source's `server == nil` check in `deleteByNode` relies on)
from transport failure (a non-nil error). -/
inductive GetResult where
  | found (s : Server)
  | notFound
  | transportError (msg : String)
  deriving DecidableEq, Repr

/-- Modelled from the spec: the remote hcloud client (`*hcloud.Client`), a
black-box RPC façade given by its response behaviour for each operation the
core invokes.  `deleteResult = none` is an acknowledgement, `some msg` a
Gateway-level delete failure. -/
structure HCloudClient where
  getServer : String → GetResult
  deleteResult : Server → Option String
  listServers : String → Except String (List Server)

/-- A remote API call issued by the core, recorded as a trace element. -/
inductive ApiCall where
  | get (idOrName : String)
  | delete (s : Server)
  | list (labelSelector : String)
  deriving DecidableEq, Repr

/-- `hetznerNodeGroup`: the descriptor fields of a node group (the back-pointer
to the manager is omitted; it carries no data). -/
structure hetznerNodeGroup where
  instanceType : String
  region : String
  targetSize : Int
  maxSize : Int
  minSize : Int
  id : String
  deriving DecidableEq, Repr

/-- A compiled name template (`*template.Template`), abstracted to its source
text; the template engine itself is outside the visible slice. -/
structure Template where
  text : String
  deriving DecidableEq, Repr

/-- `hetznerManager`: the manager state (`apiCallContext` is dropped, it is the
background context).  The `nodeGroups` Go map is embedded as an association
list with unique keys. -/
structure hetznerManager where
  client : HCloudClient
  nodeGroups : List (String × hetznerNodeGroup)
  cloudInit : String
  image : String
  nameTemplate : Option Template
  sshKeys : List String

/-- Go map read `m[k]`: first (only) binding of `k`, if any. -/
def lookupGroup (gs : List (String × hetznerNodeGroup)) (k : String) :
    Option hetznerNodeGroup :=
  (gs.find? (fun p => p.1 = k)).map (fun p => p.2)

/-- Go map write `m[k] = v`: replace the binding of `k`, appending when absent. -/
def insertGroup : List (String × hetznerNodeGroup) → String → hetznerNodeGroup →
    List (String × hetznerNodeGroup)
  | [], k, g => [(k, g)]
  | (k', g') :: rest, k, g =>
    if k' = k then (k, g) :: rest else (k', g') :: insertGroup rest k g

/-- The environment configuration read by `newManager`; each field is the value
of the corresponding variable, `""` when unset (Go `os.Getenv`). -/
structure Env where
  token : String
  cloudInit : String
  image : String
  nameTemplateStr : String
  sshKey : String
  deriving DecidableEq, Repr

/-- `newManager`: validates the configuration and builds the manager with the
sentinel draining group registered.  `parseTpl` stands for
`template.New("nameTemplate").Funcs(nameTemplateFuncMap).Parse`, the external
text/template compiler; `client` for `hcloud.NewClient(hcloud.WithToken token)`. -/
def newManager (client : HCloudClient) (parseTpl : String → Except String Template)
    (env : Env) : Except String hetznerManager :=
  if env.token = "" then
    .error "`HCLOUD_TOKEN` is not specified"
  else if env.cloudInit = "" then
    .error "`HCLOUD_CLOUD_INIT` is not specified"
  else
    let image := if env.image = "" then "ubuntu-20.04" else env.image
    let tplStep : Except String (Option Template) :=
      if env.nameTemplateStr ≠ "" then
        match parseTpl env.nameTemplateStr with
        | .error e => .error ("failed to parse name template: " ++ e)
        | .ok tpl => .ok (some tpl)
      else .ok none
    match tplStep with
    | .error e => .error e
    | .ok nameTemplate =>
      let sshKeys := goSplitComma env.sshKey
      match base64StdDecode env.cloudInit with
      | none => .error "failed to parse cloud init error: illegal base64 data"
      | some cloudInit =>
        let m : hetznerManager :=
          { client := client
            nodeGroups := []
            cloudInit := stringOfBytes cloudInit
            nameTemplate := nameTemplate
            image := image
            sshKeys := sshKeys }
        .ok { m with
              nodeGroups :=
                insertGroup m.nodeGroups drainingNodePoolId
                  { instanceType := "cx11"
                    region := "fsn1"
                    targetSize := 0
                    maxSize := 0
                    minSize := 0
                    id := drainingNodePoolId } }

/-- `Refresh`: a no-op returning nil error; issues no remote call. -/
def Refresh (_m : hetznerManager) : Except String Unit × List ApiCall :=
  (.ok (), [])

/-- `allServers`: label-filtered listing through the client, wrapping transport
failures. -/
def allServers (m : hetznerManager) (nodeGroup : String) :
    Except String (List Server) × List ApiCall :=
  let sel := nodeGroupLabelKey ++ "=" ++ nodeGroup
  match m.client.listServers sel with
  | .error e => (.error ("failed to get servers for hcloud: " ++ e), [.list sel])
  | .ok servers => (.ok servers, [.list sel])

/-- The identifier `serverForNode` queries with: the provider id stripped of the
known scheme when present, the cluster name otherwise (local `nodeIdOrName`). -/
def nodeIdOrName (node : Node) : String :=
  if node.providerID ≠ "" then goStripLeading node.providerID providerIDScheme
  else node.name

/-- `serverForNode`: resolves the node's identifier and queries the client.
A transport failure is wrapped; absence is returned as `ok none` (nil server,
nil error), mirroring the source's `if err != nil` check being its only branch. -/
def serverForNode (m : hetznerManager) (node : Node) :
    Except String (Option Server) × List ApiCall :=
  let ident := nodeIdOrName node
  match m.client.getServer ident with
  | .transportError msg =>
    (.error ("failed to get servers for node " ++ node.name ++ " error: " ++ msg),
      [.get ident])
  | .found s => (.ok (some s), [.get ident])
  | .notFound => (.ok none, [.get ident])

/-- `deleteServer`: issues the delete call and returns the client's error
verbatim. -/
def deleteServer (m : hetznerManager) (server : Server) :
    Except String Unit × List ApiCall :=
  match m.client.deleteResult server with
  | some e => (.error e, [.delete server])
  | none => (.ok (), [.delete server])

/-- `deleteByNode`: resolves the node, fails without deleting when resolution
errs or finds no server, otherwise delegates to `deleteServer` and returns its
result unchanged. -/
def deleteByNode (m : hetznerManager) (node : Node) :
    Except String Unit × List ApiCall :=
  match serverForNode m node with
  | (.error e, calls) =>
    (.error ("failed to delete node " ++ node.name ++ " error: " ++ e), calls)
  | (.ok none, calls) =>
    (.error ("failed to delete node " ++ node.name ++ " server not found"), calls)
  | (.ok (some server), calls) =>
    let (res, dcalls) := deleteServer m server
    (res, calls ++ dcalls)

/-- `addNodeToDrainingPool`: increments the draining group's `targetSize` and
returns the draining descriptor with a nil error; the body never touches the
client, so the trace is empty.  `none` models the nil-map-entry dereference
panic Go would hit if the draining group were ever absent (it never is for a
constructed manager). -/
def addNodeToDrainingPool (m : hetznerManager) (_node : Node) :
    Option ((hetznerManager × hetznerNodeGroup) × Option String) × List ApiCall :=
  match lookupGroup m.nodeGroups drainingNodePoolId with
  | none => (none, [])
  | some g =>
    let g' := { g with targetSize := g.targetSize + 1 }
    (some (({ m with nodeGroups := insertGroup m.nodeGroups drainingNodePoolId g' }, g'),
        none),
      [])

/-- `N` sequential `addNodeToDrainingPool` calls, threading the manager state;
`none` when any call hits the missing-group panic. -/
def drainN (node : Node) : hetznerManager → Nat → Option hetznerManager
  | m, 0 => some m
  | m, n + 1 =>
    match (addNodeToDrainingPool m node).1 with
    | none => none
    | some ((m', _), _) => drainN node m' n

/-- One invocation of a manager method, for stating state-transition
invariants over the whole interface of the source file. -/
inductive MgrOp where
  | refreshOp
  | allServersOp (nodeGroup : String)
  | serverForNodeOp (node : Node)
  | deleteServerOp (server : Server)
  | deleteByNodeOp (node : Node)
  | addToDrainingOp (node : Node)

/-- The manager-state transition of each operation: only
`addNodeToDrainingPool` writes a manager field (Go mutates the draining group
held in the `nodeGroups` map); every other method's body assigns no manager
field, so those operations leave the state unchanged.  `none` is the
missing-draining-group panic. -/
def stepManager (m : hetznerManager) : MgrOp → Option hetznerManager
  | .refreshOp => some m
  | .allServersOp _ => some m
  | .serverForNodeOp _ => some m
  | .deleteServerOp _ => some m
  | .deleteByNodeOp _ => some m
  | .addToDrainingOp node => ((addNodeToDrainingPool m node).1).map (fun r => r.1.1)

/-! ## The name-template function catalog

`nameTemplateFuncMap` registers an allow-list of `strings` primitives; the
commented-out entries of the source (`fieldsFunc`, `index`, `indexFunc`,
`lastIndexFunc`, `map`, `title`, the `Special` case conversions and the
`Func` trims) are absent from it. -/

/-- The keys of `nameTemplateFuncMap`: the supported template function
catalog, transcribed from the source map literal. -/
def nameTemplateFuncMapKeys : List String :=
  ["compare", "contains", "containsAny", "containsRune", "count", "equalFold",
   "fields", "hasPrefix", "hasSuffix", "indexAny", "indexByte", "indexRune",
   "join", "lastIndex", "lastIndexAny", "lastIndexByte", "repeat", "replace",
   "replaceAll", "split", "splitAfter", "splitAfterN", "splitN", "toLower",
   "toTitle", "toUpper", "toValidUTF8", "trim", "trimLeft", "trimPrefix",
   "trimRight", "trimSpace", "trimSuffix"]

/-- The index family of Go `strings` functions, in the map's lower-camel
spelling: `Index`, `IndexAny`, `IndexByte`, `IndexFunc`, `IndexRune` and the
`LastIndex*` counterparts. -/
def stringsIndexFamily : List String :=
  ["index", "indexAny", "indexByte", "indexFunc", "indexRune",
   "lastIndex", "lastIndexAny", "lastIndexByte", "lastIndexFunc"]

/-- The members of the index family whose Go signature takes a
runtime-supplied predicate callback (`func(rune) bool`). -/
def stringsIndexPredicateVariants : List String :=
  ["indexFunc", "lastIndexFunc"]

/-- Modelled from the spec: the text/template compiler is outside the visible
slice, so a template source is abstracted as its raw text together with the
set of function names it references. -/
structure TemplateSource where
  text : String
  refs : List String
  deriving DecidableEq, Repr

/-- The error produced when a referenced function is outside the catalog. -/
def templateErrMsg : String := "TemplateSyntaxError: function not defined"

/-- Modelled from the spec: compilation under the supported function set
(`template.New(..).Funcs(nameTemplateFuncMap).Parse`); it succeeds exactly
when every referenced function is in the catalog, and never partially
succeeds. -/
def compileTemplate (t : TemplateSource) : Except String Template :=
  if ∀ f ∈ t.refs, f ∈ nameTemplateFuncMapKeys then .ok ⟨t.text⟩
  else .error templateErrMsg

/-! ## Concrete fixtures for witnesses and counterexamples -/

/-- A client whose get reports absence, whose delete acknowledges, whose
listing is empty. -/
def notFoundClient : HCloudClient :=
  { getServer := fun _ => .notFound
    deleteResult := fun _ => none
    listServers := fun _ => .ok [] }

/-- A client that finds server 42 and fails every delete. -/
def delFailClient : HCloudClient :=
  { getServer := fun _ => .found { id := 42, name := "srv-42" }
    deleteResult := fun _ => some "delete failed: transport"
    listServers := fun _ => .ok [] }

/-- A template compiler stub that accepts every source. -/
def parseOk : String → Except String Template := fun s => .ok ⟨s⟩

/-- A template compiler stub that rejects every source. -/
def parseFail : String → Except String Template := fun _ => .error "function not defined"

/-- The draining descriptor exactly as `newManager` registers it. -/
def drainingGroup0 : hetznerNodeGroup :=
  { instanceType := "cx11", region := "fsn1", targetSize := 0, maxSize := 0,
    minSize := 0, id := drainingNodePoolId }

/-- A freshly-constructed-looking manager over `notFoundClient`. -/
def mgrDraining : hetznerManager :=
  { client := notFoundClient
    nodeGroups := [(drainingNodePoolId, drainingGroup0)]
    cloudInit := "hello"
    image := "ubuntu-20.04"
    nameTemplate := none
    sshKeys := [""] }

/-- The same manager state over `delFailClient`. -/
def mgrDelFail : hetznerManager :=
  { client := delFailClient
    nodeGroups := [(drainingNodePoolId, drainingGroup0)]
    cloudInit := "hello"
    image := "ubuntu-20.04"
    nameTemplate := none
    sshKeys := [""] }

/-- `mgrDraining` after one drain call: the draining counter reads 1. -/
def mgrDrained1 : hetznerManager :=
  { mgrDraining with
    nodeGroups := [(drainingNodePoolId, { drainingGroup0 with targetSize := 1 })] }

/-- A node carrying both a provider identifier and a name. -/
def nodeA : Node := { name := "node-a", providerID := "hcloud://42" }

/-- A node carrying only a name. -/
def nodeB : Node := { name := "node-b", providerID := "" }

/-- The scenario-A environment: token `t1`, cloud-init `aGVsbG8=`, everything
else unset. -/
def scenarioAEnv : Env :=
  { token := "t1", cloudInit := "aGVsbG8=", image := "", nameTemplateStr := "",
    sshKey := "" }

/-- An environment whose name template source is set (to `bad`). -/
def badTplEnv : Env :=
  { token := "t1", cloudInit := "aGVsbG8=", image := "", nameTemplateStr := "bad",
    sshKey := "" }

/-! ## Registry lemmas -/

/-- Writing a key into the registry makes it readable back. -/
theorem lookupGroup_insertGroup_self (gs : List (String × hetznerNodeGroup))
    (k : String) (g : hetznerNodeGroup) :
    lookupGroup (insertGroup gs k g) k = some g := by
  induction gs with
  | nil => simp [insertGroup, lookupGroup]
  | cons p rest ih =>
    obtain ⟨k', g'⟩ := p
    by_cases h : k' = k
    · simp [insertGroup, lookupGroup, h]
    · simp only [insertGroup, if_neg h]
      simpa [lookupGroup, List.find?, h] using ih

/-- `N` sequential drain calls succeed and add exactly `N` to the draining
group's `targetSize`, leaving its other fields untouched. -/
theorem drainN_lookup (node : Node) (N : Nat) :
    ∀ (m : hetznerManager) (g : hetznerNodeGroup),
      lookupGroup m.nodeGroups drainingNodePoolId = some g →
      ∃ mN, drainN node m N = some mN ∧
        lookupGroup mN.nodeGroups drainingNodePoolId =
          some { g with targetSize := g.targetSize + (N : Int) } := by
  induction N with
  | zero =>
    intro m g hg
    exact ⟨m, rfl, by simpa using hg⟩
  | succ n ih =>
    intro m g hg
    have hins := lookupGroup_insertGroup_self m.nodeGroups drainingNodePoolId { g with targetSize := g.targetSize + 1 }
    obtain ⟨mN, hrun, hlook⟩ := ih { m with nodeGroups := insertGroup m.nodeGroups drainingNodePoolId { g with targetSize := g.targetSize + 1 } } { g with targetSize := g.targetSize + 1 } hins
    refine ⟨mN, ?_, ?_⟩
    · simp only [drainN, addNodeToDrainingPool, hg]
      exact hrun
    · simp only at hlook
      rw [hlook]
      congr 2
      push_cast
      ring

/-- `serverForNode` performs exactly one remote call: a get with the resolved
identifier, whatever the outcome. -/
theorem serverForNode_trace (m : hetznerManager) (node : Node) :
    (serverForNode m node).2 = [.get (nodeIdOrName node)] := by
  cases h : m.client.getServer (nodeIdOrName node) <;> simp [serverForNode, h]

/-! ## Claim theorems -/

/-- C1: for every manager state holding the draining group, one
`addNodeToDrainingPool` call increments the draining group's `targetSize` by
exactly one, returns the draining descriptor (the same record the registry now
stores) with a nil error, and issues no remote API call; `N` sequential calls
starting from `targetSize = k` leave `targetSize = k + N`. -/
theorem addNodeToDrainingPool_increments (m : hetznerManager) (node : Node)
    (g : hetznerNodeGroup) (N : Nat)
    (hg : lookupGroup m.nodeGroups drainingNodePoolId = some g) :
    addNodeToDrainingPool m node =
      (some (({ m with nodeGroups := insertGroup m.nodeGroups drainingNodePoolId { g with targetSize := g.targetSize + 1 } }, { g with targetSize := g.targetSize + 1 }), none), []) ∧
    lookupGroup (insertGroup m.nodeGroups drainingNodePoolId { g with targetSize := g.targetSize + 1 }) drainingNodePoolId = some { g with targetSize := g.targetSize + 1 } ∧
    (∃ mN, drainN node m N = some mN ∧
      lookupGroup mN.nodeGroups drainingNodePoolId = some { g with targetSize := g.targetSize + (N : Int) }) := by
  refine ⟨?_, lookupGroup_insertGroup_self _ _ _, drainN_lookup node N m g hg⟩
  unfold addNodeToDrainingPool
  rw [hg]

/-- C1 witness: in the freshly constructed state, one drain issues no API call
and three sequential drains leave the counter at 3. -/
theorem addNodeToDrainingPool_increments_witness :
    lookupGroup mgrDraining.nodeGroups drainingNodePoolId = some drainingGroup0 ∧
    (addNodeToDrainingPool mgrDraining nodeA).2 = [] ∧
    (∃ m3, drainN nodeA mgrDraining 3 = some m3 ∧
      lookupGroup m3.nodeGroups drainingNodePoolId = some { drainingGroup0 with targetSize := 3 }) := by
  have h := addNodeToDrainingPool_increments mgrDraining nodeA drainingGroup0 3 rfl
  exact ⟨rfl, congrArg Prod.snd h.1, h.2.2⟩

/-- C2 counterexample: when the Gateway reports `NotFound` (here: for node-a's
identifier `42`), `serverForNode` does not fail at all — it returns a nil
server with a nil error, so the claim that it fails with a `NodeNotFound`
error is false at this input. -/
theorem serverForNode_notFound_cx :
    mgrDraining.client.getServer (nodeIdOrName nodeA) = .notFound ∧
    serverForNode mgrDraining nodeA = (.ok none, [.get "42"]) ∧
    ∀ e : String, (serverForNode mgrDraining nodeA).1 ≠ .error e := by
  refine ⟨rfl, rfl, ?_⟩
  intro e h
  simp [serverForNode, mgrDraining, notFoundClient] at h

/-- C2 amended: `serverForNode` distinguishes absence from transport failure,
but not by an error value: on Gateway `NotFound` it succeeds with no server
(nil, nil), while on transport failure it fails with the wrapped resolution
error; the `NodeNotFound` failure for an absent server is produced by its
caller `deleteByNode`. -/
theorem serverForNode_absence_vs_transport (m : hetznerManager) (node : Node) :
    (m.client.getServer (nodeIdOrName node) = .notFound →
      serverForNode m node = (.ok none, [.get (nodeIdOrName node)])) ∧
    (∀ msg, m.client.getServer (nodeIdOrName node) = .transportError msg →
      serverForNode m node =
        (.error ("failed to get servers for node " ++ node.name ++ " error: " ++ msg),
          [.get (nodeIdOrName node)])) := by
  constructor
  · intro h; simp [serverForNode, h]
  · intro msg h; simp [serverForNode, h]

/-- C2 amended witness: the absence branch at the concrete not-found client. -/
theorem serverForNode_absence_vs_transport_witness :
    mgrDraining.client.getServer (nodeIdOrName nodeA) = .notFound ∧
    serverForNode mgrDraining nodeA = (.ok none, [.get (nodeIdOrName nodeA)]) :=
  ⟨rfl, (serverForNode_absence_vs_transport mgrDraining nodeA).1 rfl⟩

/-- C3: when the node carries a non-empty provider identifier, resolution
queries the Gateway with that identifier stripped of the known scheme and the
queried identifier is independent of the node's name; when the provider
identifier is empty, resolution queries with the node's name. -/
theorem serverForNode_identifier_precedence (m : hetznerManager) (node : Node) :
    (node.providerID ≠ "" →
      (serverForNode m node).2 = [.get (goStripLeading node.providerID providerIDScheme)] ∧
      (∀ other : Node, other.providerID = node.providerID →
        nodeIdOrName other = nodeIdOrName node)) ∧
    (node.providerID = "" → (serverForNode m node).2 = [.get node.name]) := by
  constructor
  · intro h
    constructor
    · rw [serverForNode_trace, nodeIdOrName, if_pos h]
    · intro other hother
      rw [nodeIdOrName, nodeIdOrName, hother, if_pos h, if_pos h]
  · intro h
    rw [serverForNode_trace, nodeIdOrName, h]
    simp

/-- C3 witness: node-a (provider id `hcloud://42`) is queried as `42`; node-b
(no provider id) is queried by name. -/
theorem serverForNode_identifier_precedence_witness :
    nodeA.providerID ≠ "" ∧
    (serverForNode mgrDraining nodeA).2 = [.get (goStripLeading nodeA.providerID providerIDScheme)] ∧
    nodeB.providerID = "" ∧
    (serverForNode mgrDraining nodeB).2 = [.get nodeB.name] := by
  have h1 := (serverForNode_identifier_precedence mgrDraining nodeA).1 (by decide)
  have h2 := (serverForNode_identifier_precedence mgrDraining nodeB).2 rfl
  exact ⟨by decide, h1.1, rfl, h2⟩

/-- C4: construction fails with a configuration error and yields no manager
whenever the token is empty, the cloud-init payload is empty, or the payload
is not valid base64 — for every client and every template compiler. -/
theorem newManager_config_failures (client : HCloudClient)
    (parseTpl : String → Except String Template) (env : Env)
    (h : env.token = "" ∨ env.cloudInit = "" ∨ base64StdDecode env.cloudInit = none) :
    ∃ e, newManager client parseTpl env = .error e := by
  unfold newManager
  by_cases ht : env.token = ""
  · rw [if_pos ht]; exact ⟨_, rfl⟩
  · rw [if_neg ht]
    by_cases hc : env.cloudInit = ""
    · rw [if_pos hc]; exact ⟨_, rfl⟩
    · rw [if_neg hc]
      have hb : base64StdDecode env.cloudInit = none := by tauto
      dsimp only
      split
      · exact ⟨_, rfl⟩
      · rw [hb]; exact ⟨_, rfl⟩

/-- C4 witness: the empty-token environment fails construction. -/
theorem newManager_config_failures_witness :
    (({ token := "", cloudInit := "aGVsbG8=", image := "", nameTemplateStr := "", sshKey := "" } : Env).token = "" ∨
      ({ token := "", cloudInit := "aGVsbG8=", image := "", nameTemplateStr := "", sshKey := "" } : Env).cloudInit = "" ∨
      base64StdDecode "aGVsbG8=" = none) ∧
    (∃ e, newManager notFoundClient parseOk { token := "", cloudInit := "aGVsbG8=", image := "", nameTemplateStr := "", sshKey := "" } = .error e) :=
  ⟨Or.inl rfl, newManager_config_failures notFoundClient parseOk _ (Or.inl rfl)⟩

/-- C5: with token `t1`, cloud-init `aGVsbG8=` (decoding to `hello`) and no
template, construction succeeds and the registry holds exactly one group: the
draining sentinel with the `cx11`/`fsn1` placeholders and
`targetSize = minSize = maxSize = 0`. -/
theorem newManager_scenarioA (client : HCloudClient)
    (parseTpl : String → Except String Template) :
    ∃ m, newManager client parseTpl scenarioAEnv = .ok m ∧
      m.nodeGroups = [(drainingNodePoolId,
        { instanceType := "cx11", region := "fsn1", targetSize := 0, maxSize := 0,
          minSize := 0, id := drainingNodePoolId })] ∧
      m.cloudInit = "hello" :=
  ⟨_, rfl, rfl, rfl⟩

/-- C6: `deleteByNode` fails with the server-not-found error and issues no
delete call when resolution finds no backing server, and propagates the
Gateway's delete error unchanged when resolution succeeds and the delete
fails. -/
theorem deleteByNode_resolution_and_propagation (m : hetznerManager) (node : Node) :
    (m.client.getServer (nodeIdOrName node) = .notFound →
      deleteByNode m node =
        (.error ("failed to delete node " ++ node.name ++ " server not found"),
          [.get (nodeIdOrName node)]) ∧
      (∀ s : Server, ApiCall.delete s ∉ (deleteByNode m node).2)) ∧
    (∀ s e, m.client.getServer (nodeIdOrName node) = .found s →
      m.client.deleteResult s = some e →
      (deleteByNode m node).1 = .error e) := by
  constructor
  · intro h
    have hres : deleteByNode m node =
        (.error ("failed to delete node " ++ node.name ++ " server not found"),
          [.get (nodeIdOrName node)]) := by
      simp [deleteByNode, serverForNode, h]
    refine ⟨hres, ?_⟩
    intro s hmem
    rw [hres] at hmem
    simp at hmem
  · intro s e hs hd
    simp [deleteByNode, serverForNode, hs, deleteServer, hd]

/-- C6 witness: not-found yields the server-not-found error with only a get in
the trace; a failing delete's error comes back verbatim. -/
theorem deleteByNode_resolution_and_propagation_witness :
    mgrDraining.client.getServer (nodeIdOrName nodeA) = .notFound ∧
    deleteByNode mgrDraining nodeA =
      (.error "failed to delete node node-a server not found", [.get "42"]) ∧
    mgrDelFail.client.getServer (nodeIdOrName nodeA) = .found { id := 42, name := "srv-42" } ∧
    mgrDelFail.client.deleteResult { id := 42, name := "srv-42" } = some "delete failed: transport" ∧
    (deleteByNode mgrDelFail nodeA).1 = .error "delete failed: transport" := by
  have h1 := (deleteByNode_resolution_and_propagation mgrDraining nodeA).1 rfl
  have h2 := (deleteByNode_resolution_and_propagation mgrDelFail nodeA).2
    { id := 42, name := "srv-42" } "delete failed: transport" rfl rfl
  exact ⟨rfl, h1.1, rfl, rfl, h2⟩

/-- C7: every manager operation preserves the draining group's structural
bounds `minSize = maxSize = 0`, and its `targetSize` never decreases. -/
theorem stepManager_preserves_draining_invariant (m m' : hetznerManager)
    (op : MgrOp) (g : hetznerNodeGroup)
    (hstep : stepManager m op = some m')
    (hg : lookupGroup m.nodeGroups drainingNodePoolId = some g)
    (hmin : g.minSize = 0) (hmax : g.maxSize = 0) :
    ∃ g', lookupGroup m'.nodeGroups drainingNodePoolId = some g' ∧
      g'.minSize = 0 ∧ g'.maxSize = 0 ∧ g.targetSize ≤ g'.targetSize := by
  cases op with
  | addToDrainingOp node =>
    simp only [stepManager, addNodeToDrainingPool, hg, Option.map_some] at hstep
    obtain rfl : ({ m with nodeGroups := insertGroup m.nodeGroups drainingNodePoolId { g with targetSize := g.targetSize + 1 } } : hetznerManager) = m' := by
      simpa using hstep
    exact ⟨{ g with targetSize := g.targetSize + 1 },
      lookupGroup_insertGroup_self _ _ _, hmin, hmax, by simp⟩
  | refreshOp =>
    obtain rfl : m = m' := by simpa [stepManager] using hstep
    exact ⟨g, hg, hmin, hmax, le_refl _⟩
  | allServersOp ng =>
    obtain rfl : m = m' := by simpa [stepManager] using hstep
    exact ⟨g, hg, hmin, hmax, le_refl _⟩
  | serverForNodeOp n =>
    obtain rfl : m = m' := by simpa [stepManager] using hstep
    exact ⟨g, hg, hmin, hmax, le_refl _⟩
  | deleteServerOp s =>
    obtain rfl : m = m' := by simpa [stepManager] using hstep
    exact ⟨g, hg, hmin, hmax, le_refl _⟩
  | deleteByNodeOp n =>
    obtain rfl : m = m' := by simpa [stepManager] using hstep
    exact ⟨g, hg, hmin, hmax, le_refl _⟩

/-- C7 witness: the drain step from the constructed state keeps the zero
bounds and does not decrease the counter. -/
theorem stepManager_preserves_draining_invariant_witness :
    stepManager mgrDraining (.addToDrainingOp nodeA) = some mgrDrained1 ∧
    drainingGroup0.minSize = 0 ∧ drainingGroup0.maxSize = 0 ∧
    (∃ g', lookupGroup mgrDrained1.nodeGroups drainingNodePoolId = some g' ∧
      g'.minSize = 0 ∧ g'.maxSize = 0 ∧ drainingGroup0.targetSize ≤ g'.targetSize) := by
  have h := stepManager_preserves_draining_invariant mgrDraining mgrDrained1
    (.addToDrainingOp nodeA) drainingGroup0 rfl rfl rfl rfl
  exact ⟨rfl, rfl, rfl, h⟩

/-- C8 counterexample: with the SSH key configuration value absent (empty),
the constructed manager's `sshKeys` is `[""]` — the one-field result of Go's
`strings.Split("", ",")` — not the empty list the claim states. -/
theorem newManager_sshKeys_empty_cx :
    scenarioAEnv.sshKey = "" ∧
    newManager notFoundClient parseOk scenarioAEnv = .ok mgrDraining ∧
    mgrDraining.sshKeys = [""] ∧ mgrDraining.sshKeys ≠ ([] : List String) :=
  ⟨rfl, rfl, rfl, by simp [mgrDraining]⟩

/-- C8 amended: when the SSH key configuration value is absent (empty), the
constructed manager's `sshKeys` is the singleton list holding one empty
identifier, `[""]`. -/
theorem newManager_sshKeys_default (client : HCloudClient)
    (parseTpl : String → Except String Template) (env : Env) (m : hetznerManager)
    (hk : env.sshKey = "") (h : newManager client parseTpl env = .ok m) :
    m.sshKeys = [""] := by
  unfold newManager at h
  split at h
  · exact Except.noConfusion h
  · split at h
    · exact Except.noConfusion h
    · dsimp only at h
      split at h
      · exact Except.noConfusion h
      · split at h
        · exact Except.noConfusion h
        · injection h with h'
          subst h'
          simp [goSplitComma, hk, splitCommaAux]

/-- C8 amended witness: scenario A's construction result. -/
theorem newManager_sshKeys_default_witness :
    scenarioAEnv.sshKey = "" ∧ mgrDraining.sshKeys = [""] :=
  ⟨rfl, newManager_sshKeys_default notFoundClient parseOk scenarioAEnv mgrDraining rfl rfl⟩

/-- C9 counterexample: `index` belongs to the index family and takes no
predicate callback, yet it is not in the supported catalog (the source
comments it out because text/template already predefines `index`), so the
catalog does not include the whole predicate-free index family. -/
theorem index_missing_from_catalog_cx :
    "index" ∈ stringsIndexFamily ∧ "index" ∉ stringsIndexPredicateVariants ∧
    "index" ∉ nameTemplateFuncMapKeys := by decide

/-- C9 amended: compilation of a source referencing a function outside the
catalog fails with the template syntax error and construction never yields a
manager when its template fails to compile; the catalog's slice of the index
family is the family minus the predicate-callback variants minus `index`
itself. -/
theorem nameTemplate_catalog_and_compile_failure :
    (∀ t : TemplateSource, (∃ f ∈ t.refs, f ∉ nameTemplateFuncMapKeys) →
      compileTemplate t = .error templateErrMsg) ∧
    (∀ (client : HCloudClient) (parseTpl : String → Except String Template)
        (env : Env) (e : String),
      env.token ≠ "" → env.cloudInit ≠ "" → env.nameTemplateStr ≠ "" →
      parseTpl env.nameTemplateStr = .error e →
      newManager client parseTpl env = .error ("failed to parse name template: " ++ e)) ∧
    (∀ f ∈ stringsIndexFamily,
      f ∈ nameTemplateFuncMapKeys ↔ (f ∉ stringsIndexPredicateVariants ∧ f ≠ "index")) := by
  refine ⟨?_, ?_, by decide⟩
  · rintro t ⟨f, hf, hnot⟩
    unfold compileTemplate
    rw [if_neg]
    push_neg
    exact ⟨f, hf, hnot⟩
  · intro client parseTpl env e htok hcloud htpl hparse
    unfold newManager
    rw [if_neg htok, if_neg hcloud]
    dsimp only
    rw [if_pos htpl, hparse]

/-- C9 amended witness: a source referencing `fieldsFunc` fails to compile, a
rejected template aborts construction, and `indexAny` sits in the catalog by
the stated criterion. -/
theorem nameTemplate_catalog_and_compile_failure_witness :
    compileTemplate { text := "bad", refs := ["fieldsFunc"] } = .error templateErrMsg ∧
    newManager notFoundClient parseFail badTplEnv =
      .error "failed to parse name template: function not defined" ∧
    ("indexAny" ∈ nameTemplateFuncMapKeys ↔
      ("indexAny" ∉ stringsIndexPredicateVariants ∧ "indexAny" ≠ "index")) := by
  have h := nameTemplate_catalog_and_compile_failure
  exact ⟨h.1 _ ⟨"fieldsFunc", by decide, by decide⟩,
    h.2.1 notFoundClient parseFail badTplEnv "function not defined"
      (by decide) (by decide) (by decide) rfl,
    h.2.2 "indexAny" (by decide)⟩

/-- C10: in every manager state holding the draining group,
`addNodeToDrainingPool` succeeds with a nil error for every node argument —
including a node naming no known server — and both its return value and its
effect on the state are independent of that argument. -/
theorem addNodeToDrainingPool_total_node_independent (m : hetznerManager)
    (node other : Node) (g : hetznerNodeGroup)
    (hg : lookupGroup m.nodeGroups drainingNodePoolId = some g) :
    (addNodeToDrainingPool m node).1 =
      some (({ m with nodeGroups := insertGroup m.nodeGroups drainingNodePoolId { g with targetSize := g.targetSize + 1 } }, { g with targetSize := g.targetSize + 1 }), none) ∧
    addNodeToDrainingPool m node = addNodeToDrainingPool m other := by
  constructor
  · unfold addNodeToDrainingPool
    rw [hg]
  · rfl

/-- C10 witness: node-a (an unknown server) and node-b produce the same
successful result on the constructed state. -/
theorem addNodeToDrainingPool_total_node_independent_witness :
    lookupGroup mgrDraining.nodeGroups drainingNodePoolId = some drainingGroup0 ∧
    (addNodeToDrainingPool mgrDraining nodeA).1 =
      some (({ mgrDraining with nodeGroups := insertGroup mgrDraining.nodeGroups drainingNodePoolId { drainingGroup0 with targetSize := 1 } }, { drainingGroup0 with targetSize := 1 }), none) ∧
    addNodeToDrainingPool mgrDraining nodeA = addNodeToDrainingPool mgrDraining nodeB := by
  have h := addNodeToDrainingPool_total_node_independent mgrDraining nodeA nodeB drainingGroup0 rfl
  exact ⟨rfl, h.1, h.2⟩

end Hetzner
